import Mathlib

/-!
Verification of the GenericType repository: a shallow embedding of its
Naming Resolver (`kebabCase`, `extractHookName`), its filename-based
framework inference (`inferHookContext`), its hook factories
(`useInferredHook`, `useEnhancedHook`, `useReactive`) and, where the
claims need the external "sweettooth" Component System that the sources
only import, a model of that system built from the specification.

Strings are embedded as `String` with proofs carried out on the
underlying character lists.  Machine behaviour of the JavaScript string
methods is mirrored exactly: `replace(/[A-Z]/g, l => "-" + l.toLowerCase())`
touches only the ASCII range A-Z, `replace(/^use/, "")` removes one
anchored occurrence, `replace(/Hook$/, "")` removes one trailing
occurrence.
-/

/-- ASCII upper-case test: the exact character class of the regex `[A-Z]`
used by `kebabCase` in `src/Source/v3/inference.ts` line 85 (and the
inline regex in `src/unnamed/part_000` lines 50-53). -/
def isAsciiUpper (c : Char) : Bool := 65 ≤ c.toNat && c.toNat ≤ 90

/-- ASCII lowering, `letter.toLowerCase()` as it behaves on a character
matched by `[A-Z]` (code point shifted by 32). -/
def asciiLower (c : Char) : Char := Char.ofNat (c.toNat + 32)

/-- Character-list form of `kebabCase`: every `[A-Z]` character is
replaced by a hyphen followed by its lower-case form; all other
characters are kept.  Translated from
`str.replace(/[A-Z]/g, (letter) => "-" + letter.toLowerCase())`
(`src/Source/v3/inference.ts` lines 84-86). -/
def kebabCaseL : List Char → List Char
  | [] => []
  | c :: rest => (if isAsciiUpper c then ['-', asciiLower c] else [c]) ++ kebabCaseL rest

/-- The `kebabCase` helper of `src/Source/v3/inference.ts` lines 84-86;
the same expression appears inline in `src/unnamed/part_000` lines 50-53. -/
def kebabCase (s : String) : String := ⟨kebabCaseL s.data⟩

/-- Character-list form of `name.replace(/^use/, "")`: the anchored match
removes a leading literal `use` when present, otherwise the string is
unchanged. -/
def stripUseL (l : List Char) : List Char :=
  if ['u', 's', 'e'].isPrefixOf l then l.drop 3 else l

/-- Character-list form of `name.replace(/Hook$/, "")`: one trailing
literal `Hook` is removed when present, otherwise the string is
unchanged. -/
def stripHookL (l : List Char) : List Char :=
  if ['H', 'o', 'o', 'k'].isSuffixOf l then l.take (l.length - 4) else l

/-- The `extractHookName` helper of `src/Source/v3/inference.ts` lines
88-90: `name.replace(/^use/, "").replace(/Hook$/, "")`, the `use`
replacement running first. -/
def extractHookName (s : String) : String := ⟨stripHookL (stripUseL s.data)⟩

/-- The Naming Resolver's full canonical transform (spec section 4.4):
prefix/suffix stripping followed by hyphenation, exactly the value
`kebabCase(extractHookName(hookName))` computed at
`src/Source/v3/inference.ts` line 60. -/
def canonicalName (s : String) : String := kebabCase (extractHookName s)

theorem char_toNat_ofNat (n : Nat) (h : n < 55296) : (Char.ofNat n).toNat = n := by
  rw [Char.ofNat, dif_pos (Or.inl h)]
  simp [Char.ofNatAux, Char.toNat, UInt32.toNat, UInt32.ofNat']

theorem isAsciiUpper_asciiLower (c : Char) (h : isAsciiUpper c = true) :
    isAsciiUpper (asciiLower c) = false := by
  simp only [isAsciiUpper, Bool.and_eq_true, decide_eq_true_eq] at h
  have ht : (asciiLower c).toNat = c.toNat + 32 := char_toNat_ofNat _ (by omega)
  have h90 : ¬((asciiLower c).toNat ≤ 90) := by omega
  simp [isAsciiUpper, h90]

theorem kebabCaseL_no_upper (l : List Char) : ∀ c ∈ kebabCaseL l, isAsciiUpper c = false := by
  induction l with
  | nil => intro c hc; simp [kebabCaseL] at hc
  | cons a rest ih =>
    intro c hc
    rw [kebabCaseL, List.mem_append] at hc
    rcases hc with hc | hc
    · by_cases ha : isAsciiUpper a = true
      · rw [if_pos ha] at hc
        simp only [List.mem_cons, List.not_mem_nil, or_false] at hc
        rcases hc with rfl | rfl
        · decide
        · exact isAsciiUpper_asciiLower a ha
      · rw [if_neg ha] at hc
        simp only [List.mem_cons, List.not_mem_nil, or_false] at hc
        subst hc
        simpa using ha
    · exact ih c hc

theorem kebabCaseL_id_of_no_upper (l : List Char) (h : ∀ c ∈ l, isAsciiUpper c = false) :
    kebabCaseL l = l := by
  induction l with
  | nil => rfl
  | cons a rest ih =>
    have ha : isAsciiUpper a = false := h a (List.mem_cons_self a rest)
    rw [kebabCaseL, if_neg (by simp [ha]), ih (fun c hc => h c (List.mem_cons_of_mem a hc))]
    rfl

theorem stripUseL_use_append (x : List Char) : stripUseL ('u' :: 's' :: 'e' :: x) = x := by
  rw [stripUseL, if_pos (by simp [List.isPrefixOf])]
  rfl

theorem stripHookL_append_hook (p : List Char) :
    stripHookL (p ++ ['H', 'o', 'o', 'k']) = p := by
  have hs : (['H', 'o', 'o', 'k'].isSuffixOf (p ++ ['H', 'o', 'o', 'k'])) = true := by
    rw [List.isSuffixOf_iff_suffix]
    exact List.suffix_append p _
  rw [stripHookL, if_pos hs]
  simp

theorem stripUseL_of_not (l : List Char) (h : (['u', 's', 'e'].isPrefixOf l) = false) :
    stripUseL l = l := by
  rw [stripUseL, if_neg (by simp [h])]

theorem stripHookL_of_not (l : List Char) (h : (['H', 'o', 'o', 'k'].isSuffixOf l) = false) :
    stripHookL l = l := by
  rw [stripHookL, if_neg (by simp [h])]

theorem stripHookL_of_no_upper (l : List Char) (h : ∀ c ∈ l, isAsciiUpper c = false) :
    stripHookL l = l := by
  apply stripHookL_of_not
  cases hs : (['H', 'o', 'o', 'k'].isSuffixOf l) with
  | false => rfl
  | true =>
    exfalso
    rw [List.isSuffixOf_iff_suffix] at hs
    obtain ⟨u, rfl⟩ := hs
    have hH : ('H' : Char) ∈ u ++ ['H', 'o', 'o', 'k'] :=
      List.mem_append_right u (by decide)
    exact absurd (h 'H' hH) (by decide)

theorem isPrefixOf_use_append_hook (l : List Char)
    (h : (['u', 's', 'e'].isPrefixOf l) = false) :
    (['u', 's', 'e'].isPrefixOf (l ++ ['H', 'o', 'o', 'k'])) = false := by
  match l with
  | [] => decide
  | [a] =>
    simp only [List.cons_append, List.nil_append, List.isPrefixOf,
      show (('s' : Char) == 'H') = false from rfl, Bool.false_and, Bool.and_false]
  | [a, b] =>
    simp only [List.cons_append, List.nil_append, List.isPrefixOf,
      show (('e' : Char) == 'H') = false from rfl, Bool.false_and, Bool.and_false]
  | a :: b :: c :: rest =>
    simp only [List.isPrefixOf, List.cons_append, List.isPrefixOf_nil_left,
      Bool.and_true] at h ⊢
    exact h

/-- Claim C2 (code_bug evidence): evaluating the Naming Resolver at the
failing input.  `kebabCase` inserts a hyphen before every
originally-capitalized letter including the first character, so the bare
name `"Counter"` (exactly what `extractHookName "useCounter"` produces)
yields `"-counter"` with a leading hyphen, while the source's own example
comment (`src/unnamed/part_000` line 114) documents `kebabName:
"counter"`.  On genuinely medial-capital input the hyphenation matches
the claim. -/
theorem kebabCase_leading_hyphen :
    kebabCase "Counter" = "-counter"
      ∧ kebabCase "userProfile" = "user-profile"
      ∧ extractHookName "useCounter" = "Counter"
      ∧ canonicalName "useCounter" = "-counter" := by
  refine ⟨?_, ?_, ?_, ?_⟩ <;> decide

/-- Claim C3 (counterexample): the full canonical transform is not
idempotent.  For `"useuseCounter"` one application yields
`"use-counter"`; the second application strips the leading `use` again
and yields `"-counter"`. -/
theorem canonical_not_idem :
    canonicalName (canonicalName "useuseCounter") ≠ canonicalName "useuseCounter" := by
  decide

/-- Claim C3 (amended): the canonical transform is idempotent on every
input whose transform output does not itself begin with the literal
`use` (the output never contains an upper-case letter, so only the
`use`-stripping step can act on a second application); moreover the
hyphenation step inserts no hyphen into an already-hyphenated input,
i.e. one containing no upper-case letter. -/
theorem canonical_idem (s : String)
    (h : (['u', 's', 'e'].isPrefixOf (canonicalName s).data) = false) :
    canonicalName (canonicalName s) = canonicalName s
      ∧ ∀ t : String, (∀ c ∈ t.data, isAsciiUpper c = false) → kebabCase t = t := by
  constructor
  · have hnu : ∀ c ∈ (canonicalName s).data, isAsciiUpper c = false :=
      kebabCaseL_no_upper (stripHookL (stripUseL s.data))
    apply String.ext
    show kebabCaseL (stripHookL (stripUseL (canonicalName s).data)) = (canonicalName s).data
    rw [stripUseL_of_not _ h, stripHookL_of_no_upper _ hnu, kebabCaseL_id_of_no_upper _ hnu]
  · intro t ht
    apply String.ext
    show kebabCaseL t.data = t.data
    exact kebabCaseL_id_of_no_upper t.data ht

/-- Witness for `canonical_idem` at the concrete input `"useCounter"`
(whose canonical form `"-counter"` does not begin with `use`) and the
already-hyphenated string `"user-profile"`. -/
theorem canonical_idem_w :
    canonicalName (canonicalName "useCounter") = canonicalName "useCounter"
      ∧ kebabCase "user-profile" = "user-profile" :=
  ⟨(canonical_idem "useCounter" (by decide)).1,
   (canonical_idem "useCounter" (by decide)).2 "user-profile" (by decide)⟩

/-- Claim C4: `extractHookName` strips a leading literal `use` and/or a
trailing literal `Hook`, removing both when both are present; in
particular `"useCounterHook"` yields the bare name `"Counter"`.  The
suffix-only and prefix-only parts carry the side conditions under which
the other anchored replacement is a no-op. -/
theorem extractHookName_strips (p : String) :
    extractHookName ("use" ++ p ++ "Hook") = p
      ∧ ((['H', 'o', 'o', 'k'].isSuffixOf p.data) = false →
          extractHookName ("use" ++ p) = p)
      ∧ ((['u', 's', 'e'].isPrefixOf p.data) = false →
          extractHookName (p ++ "Hook") = p)
      ∧ extractHookName "useCounterHook" = "Counter" := by
  refine ⟨?_, ?_, ?_, by decide⟩
  · apply String.ext
    show stripHookL (stripUseL ('u' :: 's' :: 'e' :: (p.data ++ ['H', 'o', 'o', 'k']))) = p.data
    rw [stripUseL_use_append]
    exact stripHookL_append_hook p.data
  · intro h
    apply String.ext
    show stripHookL (stripUseL ('u' :: 's' :: 'e' :: p.data)) = p.data
    rw [stripUseL_use_append]
    exact stripHookL_of_not p.data h
  · intro h
    apply String.ext
    show stripHookL (stripUseL (p.data ++ ['H', 'o', 'o', 'k'])) = p.data
    rw [stripUseL_of_not _ (isPrefixOf_use_append_hook p.data h), stripHookL_append_hook]

/-- Witness for `extractHookName_strips` at the concrete bare name
`"Counter"`, discharging both side conditions. -/
theorem extractHookName_strips_w :
    extractHookName ("use" ++ "Counter" ++ "Hook") = "Counter"
      ∧ extractHookName ("use" ++ "Counter") = "Counter"
      ∧ extractHookName ("Counter" ++ "Hook") = "Counter" :=
  ⟨(extractHookName_strips "Counter").1,
   (extractHookName_strips "Counter").2.1 (by decide),
   (extractHookName_strips "Counter").2.2.1 (by decide)⟩

/-- The three framework tags of `FrameworkContext["type"]` in
`src/Source/v3/inference.ts` lines 24-27. -/
inductive Framework where
  | react
  | solid
  | vue
deriving DecidableEq, Repr

/-- String form of a framework tag as it appears at runtime (template
literals such as the plugin name in `createFrameworkPlugin`). -/
def fwString : Framework → String
  | .react => "react"
  | .solid => "solid"
  | .vue => "vue"

/-- Substring containment on character lists: `pat` occurs contiguously
inside `hay`. -/
def listContains (hay pat : List Char) : Bool :=
  match hay with
  | [] => pat.isEmpty
  | _ :: t => pat.isPrefixOf hay || listContains t pat

/-- JavaScript `String.prototype.includes`: substring containment, used
by `inferFrameworkFromFilename` (`src/Source/v3/inference.ts` lines
121-128). -/
def jsIncludes (s pat : String) : Bool := listContains s.data pat.data

/-- The `inferFrameworkFromFilename` helper of
`src/Source/v3/inference.ts` lines 121-128: `.tsx`/`.jsx` first, then
`.solid`, then `.vue`, defaulting to react. -/
def inferFrameworkFromFilename (filename : String) : Framework :=
  if jsIncludes filename ".tsx" || jsIncludes filename ".jsx" then .react
  else if jsIncludes filename ".solid" then .solid
  else if jsIncludes filename ".vue" then .vue
  else .react

/-- The `inferImportsFromFramework` helper of
`src/Source/v3/inference.ts` lines 130-141. -/
def inferImportsFromFramework : Framework → List String
  | .react => ["useState", "useEffect"]
  | .solid => ["createSignal", "createEffect"]
  | .vue => ["ref", "onMounted"]

/-- The `HookContext` interface of `src/Source/v3/inference.ts` lines
30-34. -/
structure HookContext where
  filename : String
  imports : List String
  framework : Framework
deriving DecidableEq, Repr

/-- The `inferHookContext` function of `src/Source/v3/inference.ts`
lines 109-119: framework from the filename, imports from the framework. -/
def inferHookContext (filename : String) : HookContext :=
  ⟨filename, inferImportsFromFramework (inferFrameworkFromFilename filename),
    inferFrameworkFromFilename filename⟩

/-- Claim C10: `inferHookContext` is a pure total function of the
filename; it infers react whenever the filename contains `.tsx` or
`.jsx` — even when the filename also contains `.solid`, as in
`"Counter.solid.tsx"` — otherwise solid for `.solid`, vue for `.vue`,
react by default; and the returned imports always equal the fixed import
list of the inferred framework. -/
theorem inferHookContext_spec (filename : String) :
    ((jsIncludes filename ".tsx" = true ∨ jsIncludes filename ".jsx" = true) →
      (inferHookContext filename).framework = .react)
      ∧ (jsIncludes filename ".tsx" = false → jsIncludes filename ".jsx" = false →
          jsIncludes filename ".solid" = true →
          (inferHookContext filename).framework = .solid)
      ∧ (jsIncludes filename ".tsx" = false → jsIncludes filename ".jsx" = false →
          jsIncludes filename ".solid" = false → jsIncludes filename ".vue" = true →
          (inferHookContext filename).framework = .vue)
      ∧ (jsIncludes filename ".tsx" = false → jsIncludes filename ".jsx" = false →
          jsIncludes filename ".solid" = false → jsIncludes filename ".vue" = false →
          (inferHookContext filename).framework = .react)
      ∧ (inferHookContext filename).imports
          = inferImportsFromFramework ((inferHookContext filename).framework)
      ∧ (inferHookContext filename).filename = filename
      ∧ (inferHookContext "Counter.solid.tsx").framework = .react := by
  refine ⟨?_, ?_, ?_, ?_, rfl, rfl, by decide⟩
  · rintro (h | h) <;> simp [inferHookContext, inferFrameworkFromFilename, h]
  · intro h1 h2 h3
    simp [inferHookContext, inferFrameworkFromFilename, h1, h2, h3]
  · intro h1 h2 h3 h4
    simp [inferHookContext, inferFrameworkFromFilename, h1, h2, h3, h4]
  · intro h1 h2 h3 h4
    simp [inferHookContext, inferFrameworkFromFilename, h1, h2, h3, h4]

/-- Witness for `inferHookContext_spec` at the filename
`"Counter.solid.tsx"`, which contains both `.solid` and `.tsx` and is
classified react. -/
theorem inferHookContext_spec_w :
    (inferHookContext "Counter.solid.tsx").framework = Framework.react
      ∧ (inferHookContext "Counter.solid.tsx").imports
          = inferImportsFromFramework ((inferHookContext "Counter.solid.tsx").framework) :=
  ⟨(inferHookContext_spec "Counter.solid.tsx").1 (Or.inl (by decide)),
   (inferHookContext_spec "Counter.solid.tsx").2.2.2.2.1⟩

/-- Values stored in the open `meta` mapping of a creation request
(spec section 3: string keys to arbitrary values).  The factories store
strings and a framework tag; `blob` stands for any pre-existing entry a
caller may have stashed. -/
inductive MetaVal where
  | str (s : String)
  | fw (f : Framework)
  | blob (n : Nat)
deriving DecidableEq, Repr

/-- The `ReactiveConfig` creation request seen by the `beforeCreate`
interceptors: `id`, `type`, `initialValue`, `dependencies`, `plugins`
(represented by their registered names) and the open `meta` mapping,
embedded as a function from keys to optional values exactly as a
JavaScript object spread treats it. -/
structure RConfig (α : Type) where
  id : Option String
  type : String
  initialValue : α
  dependencies : List String
  plugins : List String
  meta : String → Option MetaVal

/-- The `beforeCreate` interceptor of the naming plugin
(`src/unnamed/part_000` lines 58-66):
`{...originalConfig, meta: {...originalConfig.meta, hookName, processedName, kebabName}}`. -/
def namingBeforeCreate (rawName processedName kebabName : String)
    (cfg : RConfig α) : RConfig α :=
  { cfg with meta := fun key =>
      if key = "hookName" then some (.str rawName)
      else if key = "processedName" then some (.str processedName)
      else if key = "kebabName" then some (.str kebabName)
      else cfg.meta key }

/-- The `beforeCreate` interceptor of `createFrameworkPlugin`
(`src/Source/v3/inference.ts` lines 96-104):
`{...config, meta: {...config.meta, framework}}`. -/
def frameworkBeforeCreate (f : Framework) (cfg : RConfig α) : RConfig α :=
  { cfg with meta := fun key =>
      if key = "framework" then some (.fw f) else cfg.meta key }

/-- A plugin as registered by the part_000 factory and by
`createFrameworkPlugin`: a name plus the interceptor slots those call
sites populate (`beforeCreate` transforming the creation request,
`beforeUpdate` transforming a proposed value).  The remaining lifecycle
slots of the source's `Plugin` interface are never given a
non-trivial value by the code paths the claims concern. -/
structure NPlugin (α : Type) where
  name : String
  beforeCreate : Option (RConfig α → RConfig α)
  beforeUpdate : Option (α → α → α)

/-- The `namingPlugin` of `src/unnamed/part_000` lines 56-67, named
`naming-` followed by the kebab name. -/
def namingPlugin (rawName processedName kebabName : String) : NPlugin α :=
  ⟨"naming-" ++ kebabName, some (namingBeforeCreate rawName processedName kebabName), none⟩

/-- The `createFrameworkPlugin` of `src/Source/v3/inference.ts` lines
93-106, named `<framework>-adapter`. -/
def createFrameworkPlugin (f : Framework) : NPlugin α :=
  ⟨fwString f ++ "-adapter", some (frameworkBeforeCreate f), none⟩

/-- The lifecycle handlers a caller may hand to the part_000 factory
(`LifecycleHandlers` in `src/unnamed/part_000` lines 22-30), restricted
to the two transforming slots the claims exercise. -/
structure ELifecycle (α : Type) where
  beforeCreate : Option (RConfig α → RConfig α)
  beforeUpdate : Option (α → α → α)

/-- The `EnhancedHookConfig` of `src/unnamed/part_000` lines 15-19: the
`ReactiveConfig` fields (all optional, as a partial JavaScript object)
plus `name`, `framework` and `lifecycle`. -/
structure EnhancedHookConfig (α : Type) where
  name : Option String
  framework : Option String
  lifecycle : Option (ELifecycle α)
  id : Option String
  type : Option String
  initialValue : Option α
  dependencies : Option (List String)
  plugins : Option (List String)
  meta : Option (String → Option MetaVal)

/-- The creation request built by `useEnhancedHook`
(`src/unnamed/part_000` lines 78-85): the spread of the caller's config
with `id` and `plugins` written after the spread, so both always hold
the factory's values. -/
structure ECreateConfig (α : Type) where
  name : Option String
  framework : Option String
  lifecycle : Option (ELifecycle α)
  id : String
  type : Option String
  initialValue : Option α
  dependencies : Option (List String)
  meta : Option (String → Option MetaVal)
  plugins : List (NPlugin α)

/-- The body of `useEnhancedHook` (`src/unnamed/part_000` lines 37-85)
up to the `system.create` call: `rawName = config.name || ""`, the
processed name (line 48 writes the type-level `ExtractHookName` where
the runtime helper is meant — the example comment at line 114 documents
`processedName: "Counter"` for `"useCounter"`, which is
`extractHookName`'s value), the kebab name, the naming plugin, the
optional lifecycle plugin named `lifecycle-<kebab>`, and the create
argument `{...config, id: kebabName, plugins: [...]}`. -/
def useEnhancedHookCreateConfig (cfg : EnhancedHookConfig α) : ECreateConfig α :=
  let rawName := cfg.name.getD ""
  let processedName := extractHookName rawName
  let kebabName := kebabCase processedName
  { name := cfg.name
    framework := cfg.framework
    lifecycle := cfg.lifecycle
    id := kebabName
    type := cfg.type
    initialValue := cfg.initialValue
    dependencies := cfg.dependencies
    meta := cfg.meta
    plugins :=
      [namingPlugin rawName processedName kebabName] ++
        (match cfg.lifecycle with
          | some lc => [⟨"lifecycle-" ++ kebabName, lc.beforeCreate, lc.beforeUpdate⟩]
          | none => []) }

/-- Plugin list of the part_000 creation request. -/
def useEnhancedHookPlugins (cfg : EnhancedHookConfig α) : List (NPlugin α) :=
  (useEnhancedHookCreateConfig cfg).plugins

/-- The `Partial<ReactiveConfig<T>>` options argument of
`useInferredHook` (`src/Source/v3/inference.ts` lines 54-57). -/
structure InferredOptions (α : Type) where
  id : Option String
  type : Option String
  initialValue : Option α
  dependencies : Option (List String)
  plugins : Option (List String)
  meta : Option (String → Option MetaVal)

/-- The creation request built by `useInferredHook`: `id` and `type` are
always present (they are given before the spread and defaulted), the
remaining fields are whatever the options carry. -/
structure InferredCreateConfig (α : Type) where
  id : String
  type : String
  initialValue : α
  dependencies : Option (List String)
  plugins : Option (List String)
  meta : Option (String → Option MetaVal)

/-- The `system.create` argument of `useInferredHook`
(`src/Source/v3/inference.ts` lines 68-73):
`{id: reactiveId, type: options.type || "state", initialValue, ...options}`
with `reactiveId = kebabCase(extractHookName(hookName))`; the trailing
spread lets every explicitly supplied option override the defaults
written before it. -/
def useInferredHookCreateConfig (name : String) (initialValue : α)
    (options : InferredOptions α) : InferredCreateConfig α :=
  { id := options.id.getD (canonicalName name)
    type := options.type.getD "state"
    initialValue := options.initialValue.getD initialValue
    dependencies := options.dependencies
    plugins := options.plugins
    meta := options.meta }

/-- Enhanced config used by the C1 counterexample: the caller supplies
both a hook name and an explicit id. -/
def c1Enhanced : EnhancedHookConfig Int :=
  ⟨some "useCounter", none, none, some "explicit-id", none, some 0, none, none, none⟩

/-- Claim C1 (counterexample): `useEnhancedHook` does not use the
caller's explicit id.  With `name = "useCounter"` and
`id = "explicit-id"`, the config passed to `ComponentSystem.create`
carries the kebab-cased name, not `"explicit-id"`, because the factory
writes `id: kebabName` after spreading the caller's config. -/
theorem enhanced_id_overridden :
    (useEnhancedHookCreateConfig c1Enhanced).id ≠ "explicit-id"
      ∧ (useEnhancedHookCreateConfig c1Enhanced).id = "-counter" := by
  refine ⟨?_, ?_⟩ <;> decide

/-- Claim C1 (amended): `useInferredHook` uses the canonical hyphenated
name only as a default — an explicitly supplied id reaches
`ComponentSystem.create` unchanged — whereas `useEnhancedHook` always
writes the canonical kebab name as the id, overriding any
caller-supplied id. -/
theorem create_id_default (name : String) (v : α) (opts : InferredOptions α)
    (cfg : EnhancedHookConfig α) :
    (useInferredHookCreateConfig name v opts).id = opts.id.getD (canonicalName name)
      ∧ (opts.id = none →
          (useInferredHookCreateConfig name v opts).id = canonicalName name)
      ∧ (∀ x, opts.id = some x → (useInferredHookCreateConfig name v opts).id = x)
      ∧ (useEnhancedHookCreateConfig cfg).id
          = kebabCase (extractHookName (cfg.name.getD "")) := by
  refine ⟨rfl, ?_, ?_, rfl⟩
  · intro h
    simp [useInferredHookCreateConfig, h]
  · intro x h
    simp [useInferredHookCreateConfig, h]

/-- Options used by the C1 witness: an explicit id is supplied. -/
def c1OptsW : InferredOptions Int := ⟨some "explicit-id", none, none, none, none, none⟩

/-- Options without an id, for the default branch of the C1 witness. -/
def c1OptsD : InferredOptions Int := ⟨none, none, none, none, none, none⟩

/-- Witness for `create_id_default`: with an explicit id the inferred
factory passes it through unchanged; without one it falls back to the
canonical name. -/
theorem create_id_default_w :
    (useInferredHookCreateConfig "useCounter" (0 : Int) c1OptsW).id = "explicit-id"
      ∧ (useInferredHookCreateConfig "useCounter" (0 : Int) c1OptsD).id
          = canonicalName "useCounter" :=
  ⟨(create_id_default "useCounter" (0 : Int) c1OptsW c1Enhanced).2.2.1 "explicit-id" rfl,
   (create_id_default "useCounter" (0 : Int) c1OptsD c1Enhanced).2.1 rfl⟩

/-- Claim C9: the `beforeCreate` interceptors installed by the factories
change nothing but `meta`: every other field of the config is returned
unchanged, every pre-existing `meta` entry under a key other than the
plugin's own keys is preserved, and the plugin's own keys are set to its
values (`hookName`/`processedName`/`kebabName` for the naming plugin,
`framework` for the framework plugin). -/
theorem beforeCreate_frame (r p k : String) (f : Framework) (cfg : RConfig α) :
    ((namingBeforeCreate r p k cfg).id = cfg.id
        ∧ (namingBeforeCreate r p k cfg).type = cfg.type
        ∧ (namingBeforeCreate r p k cfg).initialValue = cfg.initialValue
        ∧ (namingBeforeCreate r p k cfg).dependencies = cfg.dependencies
        ∧ (namingBeforeCreate r p k cfg).plugins = cfg.plugins
        ∧ (∀ key : String, key ≠ "hookName" → key ≠ "processedName" →
            key ≠ "kebabName" → (namingBeforeCreate r p k cfg).meta key = cfg.meta key)
        ∧ (namingBeforeCreate r p k cfg).meta "hookName" = some (.str r)
        ∧ (namingBeforeCreate r p k cfg).meta "processedName" = some (.str p)
        ∧ (namingBeforeCreate r p k cfg).meta "kebabName" = some (.str k))
      ∧ ((frameworkBeforeCreate f cfg).id = cfg.id
        ∧ (frameworkBeforeCreate f cfg).type = cfg.type
        ∧ (frameworkBeforeCreate f cfg).initialValue = cfg.initialValue
        ∧ (frameworkBeforeCreate f cfg).dependencies = cfg.dependencies
        ∧ (frameworkBeforeCreate f cfg).plugins = cfg.plugins
        ∧ (∀ key : String, key ≠ "framework" →
            (frameworkBeforeCreate f cfg).meta key = cfg.meta key)
        ∧ (frameworkBeforeCreate f cfg).meta "framework" = some (.fw f)) := by
  refine ⟨⟨rfl, rfl, rfl, rfl, rfl, ?_, ?_, ?_, ?_⟩, rfl, rfl, rfl, rfl, rfl, ?_, ?_⟩
  · intro key h1 h2 h3
    simp [namingBeforeCreate, h1, h2, h3]
  · simp [namingBeforeCreate]
  · rw [namingBeforeCreate]
    simp only
    rw [if_neg (by decide)]
    simp
  · rw [namingBeforeCreate]
    simp only
    rw [if_neg (by decide), if_neg (by decide)]
    simp
  · intro key h1
    simp [frameworkBeforeCreate, h1]
  · simp [frameworkBeforeCreate]

/-- Sample config for the C9 witness, carrying a pre-existing meta entry
under the key `"legacy"`. -/
def c9Cfg : RConfig Int :=
  ⟨some "x", "state", 0, [], [],
    fun key => if key = "legacy" then some (.blob 7) else none⟩

/-- Witness for `beforeCreate_frame`: both interceptors leave the
pre-existing `"legacy"` entry and the non-meta fields of a concrete
config untouched while writing their own keys. -/
theorem beforeCreate_frame_w :
    (namingBeforeCreate "useCounter" "Counter" "counter" c9Cfg).meta "legacy"
        = c9Cfg.meta "legacy"
      ∧ (namingBeforeCreate "useCounter" "Counter" "counter" c9Cfg).initialValue
          = c9Cfg.initialValue
      ∧ (frameworkBeforeCreate Framework.react c9Cfg).meta "legacy" = c9Cfg.meta "legacy"
      ∧ (frameworkBeforeCreate Framework.react c9Cfg).meta "framework"
          = some (MetaVal.fw Framework.react) :=
  ⟨(beforeCreate_frame "useCounter" "Counter" "counter" Framework.react c9Cfg).1.2.2.2.2.2.1
      "legacy" (by decide) (by decide) (by decide),
   (beforeCreate_frame "useCounter" "Counter" "counter" Framework.react c9Cfg).1.2.2.1,
   (beforeCreate_frame "useCounter" "Counter" "counter" Framework.react c9Cfg).2.2.2.2.2.2.1
      "legacy" (by decide),
   (beforeCreate_frame "useCounter" "Counter" "counter" Framework.react c9Cfg).2.2.2.2.2.2.2⟩

/-- Modelled from the spec: the creation-request payload threaded
through the `beforeCreate` fold of the external "sweettooth"
`ComponentSystem` (absent from src/), spec sections 3 and 4.2: `id`,
`type`, `initialValue` and `dependencies`; the plugin list of a request
is fixed per request and carried alongside. -/
structure CoreConfig (α : Type) where
  id : Option String
  type : String
  initialValue : α
  dependencies : List String

/-- The `LifecycleHandlers` a caller hands to `useReactive`
(`src/unnamed/part_001` lines 4-12), restricted to the transforming
slots the claims exercise (`beforeCreate`, `beforeUpdate`); the fan-out
slots (`afterCreate`, `afterUpdate`, `beforeDestroy`) do not alter any
payload (spec section 4.2) and are not needed by any claim. -/
structure SLifecycle (α : Type) where
  beforeCreate : Option (CoreConfig α → CoreConfig α)
  beforeUpdate : Option (α → α → α)

/-- A plugin as registered with the modelled Component System: a name
plus the transforming interceptor slots. -/
structure SPlugin (α : Type) where
  name : String
  beforeCreate : Option (CoreConfig α → CoreConfig α)
  beforeUpdate : Option (α → α → α)

/-- The lifecycle plugin built by `useReactive`
(`src/unnamed/part_001` lines 85-92): named `lifecycle-` followed by the
config id, falling back to a fresh `crypto.randomUUID()` value (passed
here as the `uuid` argument), and forwarding the caller's handlers. -/
def lifecyclePlugin (id : Option String) (uuid : String) (lc : SLifecycle α) : SPlugin α :=
  ⟨"lifecycle-" ++ id.getD uuid, lc.beforeCreate, lc.beforeUpdate⟩

/-- The `HookConfig` of `src/unnamed/part_001` lines 22-28 (the
`type = "state"`, `lifecycle = {}`, `dependencies = []` defaults are
applied at the use site as in the destructuring on lines 76-82). -/
structure HookConfig (α : Type) where
  id : Option String
  type : Option String
  initialValue : α
  lifecycle : SLifecycle α
  dependencies : List String

/-- Modelled from the spec: one live Reactive in the Component System's
registry (spec section 3), holding its id, committed value and the
plugin pipeline of its creation request. -/
structure SysEntry (α : Type) where
  id : Option String
  value : α
  plugins : List (SPlugin α)

/-- Modelled from the spec: the live-instance registry of one
`ComponentSystem` instance (spec section 4.3). -/
structure SysState (α : Type) where
  entries : List (SysEntry α)

/-- An empty Component System registry. -/
def sysEmpty : SysState α := ⟨[]⟩

/-- Modelled from the spec: the `beforeCreate` fold of section 4.2 —
seed is the initial config, each plugin's `beforeCreate` (absence is a
no-op) transforms the fold-so-far in registration order. -/
def foldBeforeCreate (plugins : List (SPlugin α)) (cfg : CoreConfig α) : CoreConfig α :=
  plugins.foldl (fun acc p => match p.beforeCreate with | some f => f acc | none => acc) cfg

/-- Modelled from the spec: the `beforeUpdate` fold of section 4.2 —
seed is the proposed new value, each plugin's `beforeUpdate` receives
the old committed value and the fold-so-far, in registration order; the
result is the committed value. -/
def foldBeforeUpdate (plugins : List (SPlugin α)) (old proposed : α) : α :=
  plugins.foldl (fun acc p => match p.beforeUpdate with | some f => f old acc | none => acc) proposed

/-- Modelled from the spec: `ComponentSystem.create` (section 4.3) —
the config runs through the `beforeCreate` fold and the resulting
Reactive is registered with the fold's id and initial value. -/
def sysCreate (st : SysState α) (cfg : CoreConfig α) (plugins : List (SPlugin α)) :
    SysState α :=
  let final := foldBeforeCreate plugins cfg
  ⟨⟨final.id, final.initialValue, plugins⟩ :: st.entries⟩

/-- Modelled from the spec: `ComponentSystem.set` (section 4.3) — the
live Reactive with the given id has its value replaced by the result of
the `beforeUpdate` fold over the proposed value. -/
def sysSet (st : SysState α) (id : String) (v : α) : SysState α :=
  ⟨st.entries.map fun e =>
    if e.id == some id then ⟨e.id, foldBeforeUpdate e.plugins e.value v, e.plugins⟩ else e⟩

/-- Modelled from the spec: `ComponentSystem.get` (section 4.3) — the
current committed value of the live Reactive with the given id. -/
def sysGet (st : SysState α) (id : String) : Option α :=
  (st.entries.find? fun e => e.id == some id).map SysEntry.value

/-- One step in the observable history of a `setValue` call: the awaited
core update (`await reactive.then((r) => r.set?.(newValue))`) or the
framework-local write that follows it. -/
inductive Ev (α : Type) where
  | coreSet (id : Option String) (v : α)
  | localWrite (v : α)
deriving DecidableEq, Repr

/-- The event trace of the async `setValue` closure returned by
`useReactive` (`src/unnamed/part_001` lines 110-144): in all three
framework branches the body is
`await reactive.then((r) => r.set?.(newValue)); <local write>(newValue)`,
so the awaited core set precedes the framework-local write, and the
local write receives the raw `newValue`. -/
def setValueTrace (id : Option String) (v : α) : List (Ev α) :=
  [Ev.coreSet id v, Ev.localWrite v]

/-- The mutable object with a `value` field produced by Vue's `ref`. -/
structure VueRef (α : Type) where
  value : α
deriving DecidableEq, Repr

/-- The framework-local state produced by an adapter's `setup`
(`src/unnamed/part_001` lines 31-66): React's `{state, setState}` pair
(the setter is the local-write event of the trace), Solid's signal
accessor, Vue's ref object. -/
inductive FrameworkState (α : Type) where
  | reactState (state : α)
  | solidState (accessor : Unit → α)
  | vueState (r : VueRef α)

/-- A framework adapter as the `useReactive` path consumes it: its
`setup` function (the `cleanup`/`update` members of the source object
are not reached by any claim: `cleanup()` only builds and discards a
callback, and `update` is never called by `useReactive`). -/
structure FrameworkAdapterM (α : Type) where
  setup : α → FrameworkState α

/-- The `frameworkAdapters` object of `src/unnamed/part_001` lines
31-66: a lookup with exactly the keys `react`, `solid` and `vue`;
any other key yields no adapter (in JavaScript, `undefined`). -/
def frameworkAdapters (α : Type) (framework : String) : Option (FrameworkAdapterM α) :=
  if framework = "react" then some ⟨fun v => .reactState v⟩
  else if framework = "solid" then some ⟨fun v => .solidState fun _ => v⟩
  else if framework = "vue" then some ⟨fun v => .vueState ⟨v⟩⟩
  else none

/-- The three binding shapes `useReactive` returns
(`src/unnamed/part_001` lines 110-144): direct value plus callback
setter, zero-argument accessor plus callback setter, mutable `value`
object plus callback setter.  Setters are represented by their event
traces. -/
inductive Binding (α : Type) where
  | reactB (value : α) (setValue : α → List (Ev α))
  | solidB (value : Unit → α) (setValue : α → List (Ev α))
  | vueB (r : VueRef α) (setValue : α → List (Ev α))

/-- The `setValue` member of a binding, common to all three shapes. -/
def bindingSetValue : Binding α → (α → List (Ev α))
  | .reactB _ s => s
  | .solidB _ s => s
  | .vueB _ s => s

/-- The `useReactive` hook of `src/unnamed/part_001` lines 69-147: the
adapter is looked up by framework key (a missing adapter makes
`adapter.setup` throw before anything else — the first error branch),
the lifecycle plugin is built, the framework-local state is set up, the
Reactive is created with the single lifecycle plugin, and the switch on
the framework returns the per-framework binding, throwing
`Unsupported framework` in the default branch.  The per-branch state
mismatches are unreachable duck-typing failures. -/
def useReactive (framework : String) (uuid : String) (st : SysState α)
    (cfg : HookConfig α) : Except String (Binding α × SysState α) :=
  match frameworkAdapters α framework with
  | none => Except.error "TypeError: adapter is undefined"
  | some adapter =>
    let plugin := lifecyclePlugin cfg.id uuid cfg.lifecycle
    let state := adapter.setup cfg.initialValue
    let st2 := sysCreate st ⟨cfg.id, cfg.type.getD "state", cfg.initialValue, cfg.dependencies⟩
      [plugin]
    if framework = "react" then
      match state with
      | .reactState s => Except.ok (.reactB s (setValueTrace cfg.id), st2)
      | _ => Except.error "TypeError: state.state is undefined"
    else if framework = "solid" then
      match state with
      | .solidState acc => Except.ok (.solidB acc (setValueTrace cfg.id), st2)
      | _ => Except.error "TypeError: state is not iterable"
    else if framework = "vue" then
      match state with
      | .vueState r => Except.ok (.vueB r (setValueTrace cfg.id), st2)
      | _ => Except.error "TypeError: state.value is undefined"
    else Except.error ("Unsupported framework: " ++ framework)

/-- Value-level effect of one `setValue(newValue)` call of
`src/unnamed/part_001` lines 110-144: the awaited `r.set?.(newValue)`
routes the value through the system's update pipeline, after which the
framework-local state receives the raw `newValue` (not the pipeline's
result).  Returns the new registry and the new framework-local value. -/
def adapterSetValueRun (st : SysState α) (id : Option String) (newValue : α) :
    SysState α × α :=
  ((match id with | some i => sysSet st i newValue | none => st), newValue)

/-- Lifecycle handlers of the C5 scenario: one plugin that doubles the
proposed value in `beforeUpdate`. -/
def c5Lc : SLifecycle Int := ⟨none, some fun _old n => n * 2⟩

/-- Hook config of the C5 scenario: id `"counter"`, initial value 0,
the doubling lifecycle. -/
def c5Cfg : HookConfig Int := ⟨some "counter", none, 0, c5Lc, []⟩

/-- Registry after the C5 creation through `useReactive` (react
variant). -/
def c5Created : SysState Int :=
  match useReactive "react" "uuid-1" sysEmpty c5Cfg with
  | .ok (_, st) => st
  | .error _ => sysEmpty

/-- Registry and framework-local value after `setValue(5)` in the C5
scenario. -/
def c5After : SysState Int × Int := adapterSetValueRun c5Created (some "counter") 5

/-- Claim C5 (counterexample): after `set("counter", 5)` with the
doubling plugin, `get("counter")` is 10 as claimed, but the value the
adapter-returned binding exposes is the caller's raw argument 5, not
the result of the `beforeUpdate` fold: `setValue` writes `newValue`
into the framework-local state after awaiting the core update. -/
theorem counter_binding_raw :
    sysGet c5After.1 "counter" = some 10 ∧ c5After.2 ≠ 10 := by
  refine ⟨?_, ?_⟩ <;> decide

/-- Claim C5 (amended): in the scenario the committed value is the fold
result 10, while the framework-local state the binding exposes after
`setValue(5)` resolves holds the raw argument 5. -/
theorem counter_scenario_amended :
    sysGet c5After.1 "counter" = some 10 ∧ c5After.2 = 5 := by
  refine ⟨?_, ?_⟩ <;> decide

/-- Claim C6: for every framework variant and every `setValue` call of a
binding returned by `useReactive`, the awaited core `set` precedes the
framework-local write: every binding's setter is the common trace, and
in that trace any local write is preceded by the core set. -/
theorem setValue_order (fw uuid : String) (st : SysState α) (cfg : HookConfig α)
    (b : Binding α) (st2 : SysState α)
    (h : useReactive fw uuid st cfg = .ok (b, st2)) :
    bindingSetValue b = setValueTrace cfg.id
      ∧ ∀ (v w : α) (i : Nat), (setValueTrace cfg.id v)[i]? = some (.localWrite w) →
          ∃ j, j < i ∧ (setValueTrace cfg.id v)[j]? = some (.coreSet cfg.id v) := by
  constructor
  · by_cases h1 : fw = "react"
    · subst h1
      simp only [useReactive, frameworkAdapters, if_pos rfl] at h
      simp at h
      obtain ⟨hb, -⟩ := h
      subst hb
      rfl
    · by_cases h2 : fw = "solid"
      · subst h2
        simp [useReactive, frameworkAdapters] at h
        obtain ⟨hb, -⟩ := h
        subst hb
        rfl
      · by_cases h3 : fw = "vue"
        · subst h3
          simp [useReactive, frameworkAdapters] at h
          obtain ⟨hb, -⟩ := h
          subst hb
          rfl
        · simp [useReactive, frameworkAdapters, h1, h2, h3] at h
  · intro v w i hi
    rcases i with _ | _ | n
    · simp [setValueTrace] at hi
    · exact ⟨0, Nat.zero_lt_one, rfl⟩
    · simp [setValueTrace] at hi

/-- Trivial lifecycle handlers for the C6/C7 witnesses. -/
def c6Lc : SLifecycle Int := ⟨none, none⟩

/-- Hook config for the C6/C7 witnesses. -/
def c6Cfg : HookConfig Int := ⟨some "counter", none, 0, c6Lc, []⟩

/-- Registry produced by the C6 witness creation. -/
def c6St2 : SysState Int :=
  sysCreate sysEmpty ⟨some "counter", "state", 0, []⟩
    [lifecyclePlugin (some "counter") "uuid-0" c6Lc]

/-- Witness for `setValue_order` at the react variant with id
`"counter"` and the call `setValue(5)`. -/
theorem setValue_order_w :
    bindingSetValue (Binding.reactB (0 : Int) (setValueTrace (some "counter")))
        = setValueTrace (some "counter")
      ∧ ∃ j, j < 1 ∧ (setValueTrace (some "counter") (5 : Int))[j]?
          = some (Ev.coreSet (some "counter") 5) :=
  ⟨(setValue_order "react" "uuid-0" sysEmpty c6Cfg
      (Binding.reactB (0 : Int) (setValueTrace (some "counter"))) c6St2 rfl).1,
   (setValue_order "react" "uuid-0" sysEmpty c6Cfg
      (Binding.reactB (0 : Int) (setValueTrace (some "counter"))) c6St2 rfl).2
      5 5 1 (by decide)⟩

/-- Claim C7: the adapter layer provides exactly three shapes — react
yields a direct value plus callback setter, solid a zero-argument
accessor plus callback setter, vue a mutable `value` object — and for
any other framework argument `useReactive` fails with an error instead
of returning a binding. -/
theorem useReactive_shapes (uuid : String) (st : SysState α) (cfg : HookConfig α) :
    (∃ st2, useReactive "react" uuid st cfg
        = .ok (.reactB cfg.initialValue (setValueTrace cfg.id), st2))
      ∧ (∃ st2, useReactive "solid" uuid st cfg
          = .ok (.solidB (fun _ => cfg.initialValue) (setValueTrace cfg.id), st2))
      ∧ (∃ st2, useReactive "vue" uuid st cfg
          = .ok (.vueB ⟨cfg.initialValue⟩ (setValueTrace cfg.id), st2))
      ∧ ∀ fw : String, fw ≠ "react" → fw ≠ "solid" → fw ≠ "vue" →
          ∃ msg, useReactive (α := α) fw uuid st cfg = .error msg := by
  refine ⟨⟨_, rfl⟩, ⟨_, rfl⟩, ⟨_, rfl⟩, ?_⟩
  intro fw h1 h2 h3
  refine ⟨"TypeError: adapter is undefined", ?_⟩
  simp [useReactive, frameworkAdapters, h1, h2, h3]

/-- Witness for `useReactive_shapes`: the react shape at a concrete
config, and the failure at the unknown framework `"angular"`. -/
theorem useReactive_shapes_w :
    (∃ st2, useReactive "react" "u" sysEmpty c6Cfg
        = .ok (.reactB c6Cfg.initialValue (setValueTrace c6Cfg.id), st2))
      ∧ ∃ msg, useReactive (α := Int) "angular" "u" sysEmpty c6Cfg = .error msg :=
  ⟨(useReactive_shapes "u" sysEmpty c6Cfg).1,
   (useReactive_shapes "u" sysEmpty c6Cfg).2.2.2 "angular"
      (by decide) (by decide) (by decide)⟩

theorem naming_ne_lifecycle (k : String) : "naming-" ++ k ≠ "lifecycle-" ++ k := by
  intro h
  obtain ⟨l⟩ := k
  have hd : 'n' :: 'a' :: 'm' :: 'i' :: 'n' :: 'g' :: '-' :: l
      = 'l' :: 'i' :: 'f' :: 'e' :: 'c' :: 'y' :: 'c' :: 'l' :: 'e' :: '-' :: l :=
    congrArg String.data h
  injection hd with h1 _
  exact absurd h1 (by decide)

/-- Claim C8: the plugin lists built by the hook factories carry
pairwise-distinct plugin names — part_000 registers `naming-<kebab>`
and, only when lifecycle handlers are supplied, `lifecycle-<kebab>`
(distinct names for every kebab name), and part_001 registers the
single `lifecycle-` plugin — so no factory-built creation request can
trigger the duplicate-plugin-name configuration error. -/
theorem factory_plugin_names_nodup (cfg : EnhancedHookConfig α) (id : Option String)
    (uuid : String) (lc : SLifecycle β) :
    ((useEnhancedHookPlugins cfg).map NPlugin.name).Nodup
      ∧ ([lifecyclePlugin id uuid lc].map SPlugin.name).Nodup := by
  constructor
  · cases hlc : cfg.lifecycle with
    | none => simp [useEnhancedHookPlugins, useEnhancedHookCreateConfig, hlc]
    | some lc2 =>
      simp [useEnhancedHookPlugins, useEnhancedHookCreateConfig, hlc, namingPlugin]
      exact naming_ne_lifecycle _
  · simp
